import Mathlib

/-!
Verification of the desktop host's local-process supervisor, secrets vault,
and Linux WebKit environment policy engine (src/src-tauri/src/main.rs).

The Rust code is shallowly embedded: pure helpers become Lean functions
and the stateful pieces (the keyring-backed secrets cache, the supervisor's
child/token slots, the process environment) become explicit state passed to
and returned from each operation.  Fallible external effects (keyring writes,
process spawning, file opens) are modelled by explicit success/failure
oracles supplied as arguments, so a single Lean function covers every
outcome of the corresponding Rust call.  String trimming and lowercasing
model Rust's `str::trim` / `to_ascii_lowercase` on the ASCII fragment.
-/

namespace WorldMonitor

/-! ### String helpers: models of `str::trim` and `to_ascii_lowercase` -/

/-- Whitespace predicate used by `rustTrim` (ASCII fragment of Rust's
`char::is_whitespace`). -/
def isRustWhitespace (c : Char) : Bool :=
  c == ' ' || c == '\t' || c == '\n' || c == '\r'

/-- Trim on character lists: drop leading whitespace, then drop trailing
whitespace (via reverse). -/
def trimChars (l : List Char) : List Char :=
  ((l.dropWhile isRustWhitespace).reverse.dropWhile isRustWhitespace).reverse

/-- Model of Rust `str::trim`. -/
def rustTrim (s : String) : String :=
  ⟨trimChars s.data⟩

/-- Model of Rust `char::to_ascii_lowercase`. -/
def asciiLowerChar (c : Char) : Char :=
  if 'A' ≤ c ∧ c ≤ 'Z' then Char.ofNat (c.toNat + 32) else c

/-- Model of Rust `str::to_ascii_lowercase`. -/
def asciiLower (s : String) : String :=
  ⟨s.data.map asciiLowerChar⟩

/-! ### The secret-key allowlist (SUPPORTED_SECRET_KEYS in main.rs) -/

def SUPPORTED_SECRET_KEYS : List String := [
  "GROQ_API_KEY",
  "OPENROUTER_API_KEY",
  "FRED_API_KEY",
  "EIA_API_KEY",
  "CLOUDFLARE_API_TOKEN",
  "ACLED_ACCESS_TOKEN",
  "URLHAUS_AUTH_KEY",
  "OTX_API_KEY",
  "ABUSEIPDB_API_KEY",
  "WINGBITS_API_KEY",
  "WS_RELAY_URL",
  "VITE_OPENSKY_RELAY_URL",
  "OPENSKY_CLIENT_ID",
  "OPENSKY_CLIENT_SECRET",
  "AISSTREAM_API_KEY",
  "VITE_WS_RELAY_URL",
  "FINNHUB_API_KEY",
  "NASA_FIRMS_API_KEY",
  "OLLAMA_API_URL",
  "OLLAMA_MODEL",
  "WORLDMONITOR_API_KEY",
  "PORTCAST_API_KEY",
  "GLOBAL_FISHING_WATCH_API_KEY",
  "ELECTRICITY_MAPS_API_KEY",
  "LIVEUAMAP_API_KEY"
]

/-! ### String maps

The Rust code uses `HashMap<String, String>`; we embed a map extensionally
as a function from keys to optional values, with pointwise insert/remove
mirroring `HashMap::insert` / `HashMap::remove`. -/

def Smap : Type := String → Option String

def Smap.empty : Smap := fun _ => none

def Smap.insert (m : Smap) (k v : String) : Smap :=
  fun q => if q = k then some v else m q

def Smap.remove (m : Smap) (k : String) : Smap :=
  fun q => if q = k then none else m q

/-! ### Secrets vault state and operations (get_secret / set_secret /
delete_secret / save_vault in main.rs)

`VaultSys.mem` is the in-memory `SecretsCache` map (the mutex always
acquires successfully in this model); `VaultSys.stored` is the parsed view
of the consolidated "secrets-vault" credential-store entry (`none` =
absent).  `save_vault`'s fallible keyring write is driven by a `persistOk`
oracle. -/

structure VaultSys where
  mem : Smap
  stored : Option Smap

/-- Model of `save_vault`: serialize and write the proposed map to the
consolidated credential-store entry.  `persistOk` models whether the
keyring init + write succeed; on failure the store is unchanged. -/
def save_vault (persistOk : Bool) (m : Smap) (stored : Option Smap) :
    Option Smap × Except String Unit :=
  if persistOk then (some m, Except.ok ())
  else (stored, Except.error "Failed to write vault")

/-- Model of the `get_secret` command. -/
def get_secret (key : String) (st : VaultSys) : Except String (Option String) :=
  if key ∈ SUPPORTED_SECRET_KEYS then
    Except.ok (st.mem key)
  else
    Except.error ("Unsupported secret key: " ++ key)

/-- Model of the `set_secret` command: validate the key, trim the value,
build the proposed map (empty-after-trim means remove), persist first via
`save_vault`, and only on success commit to the in-memory map. -/
def set_secret (persistOk : Bool) (key value : String) (st : VaultSys) :
    VaultSys × Except String Unit :=
  if key ∈ SUPPORTED_SECRET_KEYS then
    let trimmed := rustTrim value
    let proposed := if trimmed = "" then st.mem.remove key else st.mem.insert key trimmed
    match save_vault persistOk proposed st.stored with
    | (stored1, Except.ok _) => ({ mem := proposed, stored := stored1 }, Except.ok ())
    | (_, Except.error e) => (st, Except.error e)
  else
    (st, Except.error ("Unsupported secret key: " ++ key))

/-- Model of the `delete_secret` command: validate the key, build the
proposed map with the key removed, persist first, commit on success. -/
def delete_secret (persistOk : Bool) (key : String) (st : VaultSys) :
    VaultSys × Except String Unit :=
  if key ∈ SUPPORTED_SECRET_KEYS then
    let proposed := st.mem.remove key
    match save_vault persistOk proposed st.stored with
    | (stored1, Except.ok _) => ({ mem := proposed, stored := stored1 }, Except.ok ())
    | (_, Except.error e) => (st, Except.error e)
  else
    (st, Except.error ("Unsupported secret key: " ++ key))

/-! ### Sidecar supervisor state and operations (LocalApiState,
start_local_api / stop_local_api / set_local_first_mode /
get_local_api_token in main.rs)

`HostState.child` is the mutex-guarded `Option<Child>` slot (a child is
identified by its pid), `HostState.token` the mutex-guarded cached auth
token, and `HostState.prefs` the runtime-preferences file content
restricted to its boolean flags.  The fallible environment of
`start_local_api` (script presence, Node resolution, log-file open and
handle clone, spawn outcome, and the freshly generated token that would be
used if none is cached) is packaged as a `StartEnv` oracle. -/

structure HostState where
  child : Option Nat
  token : Option String
  prefs : String → Option Bool

structure StartEnv where
  scriptExists : Bool
  nodeResolved : Bool
  logOpenOk : Bool
  logCloneOk : Bool
  freshToken : String
  spawnPid : Option Nat

/-- Model of `start_local_api`.  Returns the new state, the command
result, and whether `Command::spawn` was invoked.  Mirrors the source
order: no-op success if a child is already recorded; then script check,
Node resolution, log open, log-handle clone; then lazy token generation
(the cached token is reused verbatim when present); then spawn, recording
the child only on spawn success. -/
def start_local_api (e : StartEnv) (st : HostState) :
    HostState × Except String Unit × Bool :=
  if st.child.isSome then (st, Except.ok (), false)
  else
    if e.scriptExists then
      if e.nodeResolved then
        if e.logOpenOk then
          if e.logCloneOk then
            let tok := match st.token with
              | some t => t
              | none => e.freshToken
            let st1 : HostState := { st with token := some tok }
            match e.spawnPid with
            | some pid => ({ st1 with child := some pid }, Except.ok (), true)
            | none => (st1, Except.error "Failed to launch local API", true)
          else (st, Except.error "Failed to clone local API log handle", false)
        else (st, Except.error "Failed to open local API log", false)
      else
        (st, Except.error
          "Node.js executable not found. Install Node 18+ or set LOCAL_API_NODE_BIN", false)
    else (st, Except.error "Local API sidecar script missing", false)

/-- Model of `stop_local_api`: take the child out of the slot and kill it
(`graceful_kill` affects only the child process, never the token slot). -/
def stop_local_api (st : HostState) : HostState :=
  { st with child := none }

/-- Model of the `get_local_api_token` command. -/
def get_local_api_token (st : HostState) : Except String String :=
  match st.token with
  | some t => Except.ok t
  | none => Except.error "Token not generated"

/-- Model of the `set_local_first_mode` command: insert the flag into the
prefs map, persist the prefs file (`writeOk` oracle; on failure the error
propagates before any restart), then stop and restart the sidecar. -/
def set_local_first_mode (e : StartEnv) (writeOk : Bool) (enabled : Bool)
    (st : HostState) : HostState × Except String Unit :=
  let prefs1 : String → Option Bool :=
    fun k => if k = "localFirst" then some enabled else st.prefs k
  if writeOk then
    let st1 : HostState := { st with prefs := prefs1 }
    let st2 := stop_local_api st1
    let r := start_local_api e st2
    (r.1, r.2.1)
  else (st, Except.error "Failed to write prefs")

/-! ### Linux WebKit environment policy engine (detect_linux_session /
env_value_is_false / compute_linux_webkit_policy /
apply_linux_webkit_env_policy in main.rs) -/

def LINUX_WEBKIT_SAFE_MODE_ENV : String := "WM_LINUX_WEBKIT_SAFE_MODE"

def WEBKIT_DMABUF_ENV : String := "WEBKIT_DISABLE_DMABUF_RENDERER"

/-- Model of `env_value_is_false`: the trimmed, ASCII-lowercased value is
one of the falsy tokens. -/
def env_value_is_false (value : String) : Bool :=
  let v := asciiLower (rustTrim value)
  v = "0" || v = "false" || v = "off" || v = "no"

/-- The normalization applied to `xdg_session_type` inside
`detect_linux_session`: trim, discard if empty, ASCII-lowercase. -/
def normalizeSessionType (xdg_session_type : Option String) : Option String :=
  match xdg_session_type with
  | some s =>
    let t := rustTrim s
    if t = "" then none else some (asciiLower t)
  | none => none

/-- Model of `detect_linux_session`. -/
def detect_linux_session (xdg_session_type wayland_display x11_display : Option String) :
    String :=
  let normalized := normalizeSessionType xdg_session_type
  if normalized = some "wayland" ∨ wayland_display.isSome = true then "wayland"
  else if normalized = some "x11" ∨ x11_display.isSome = true then "x11"
  else
    match normalized with
    | some session => session
    | none => "unknown"

structure LinuxWebkitEnvPolicy where
  session : String
  xdg_session_type : Option String
  wayland_display : Option String
  x11_display : Option String
  safe_mode_enabled : Bool
  existing_dmabuf_value : Option String
  applied_dmabuf_disable : Bool
  decision_reason : String

/-- Model of `compute_linux_webkit_policy`: classify the session, compute
safe mode (enabled unless the override is set to a falsy token), then run
the first-match decision table for the DMABUF renderer override. -/
def compute_linux_webkit_policy
    (xdg_session_type wayland_display x11_display
      safe_mode_override existing_dmabuf_value : Option String) :
    LinuxWebkitEnvPolicy :=
  let session := detect_linux_session xdg_session_type wayland_display x11_display
  let safe_mode_enabled := match safe_mode_override with
    | some v => !env_value_is_false v
    | none => true
  let wayland_detected := session = "wayland"
  let applied_reason : Bool × String :=
    if ¬wayland_detected then
      (false, "session=" ++ session ++ "; no automatic WebKit DMABUF override")
    else if safe_mode_enabled = false then
      (false, LINUX_WEBKIT_SAFE_MODE_ENV ++ " disabled automatic Wayland WebKit safeguards")
    else
      match existing_dmabuf_value with
      | some existing => (false, WEBKIT_DMABUF_ENV ++ " already set to " ++ existing)
      | none =>
        (true, "Wayland detected with no " ++ WEBKIT_DMABUF_ENV ++
          "; applying conservative WebKit renderer defaults")
  { session := session
    xdg_session_type := xdg_session_type
    wayland_display := wayland_display
    x11_display := x11_display
    safe_mode_enabled := safe_mode_enabled
    existing_dmabuf_value := existing_dmabuf_value
    applied_dmabuf_disable := applied_reason.1
    decision_reason := applied_reason.2 }

/-! #### The live-run wrapper (apply_linux_webkit_env_policy, Linux build)

The process environment is embedded as a map from variable names to
optional values; `std::env::set_var` / `remove_var` become pointwise
updates of that map. -/

def EnvMap : Type := String → Option String

def envSet (e : EnvMap) (name value : String) : EnvMap :=
  fun k => if k = name then some value else e k

def envRemove (e : EnvMap) (name : String) : EnvMap :=
  fun k => if k = name then none else e k

/-- Model of `read_trimmed_env_var`: read, trim, discard if empty. -/
def read_trimmed_env_var (e : EnvMap) (name : String) : Option String :=
  match e name with
  | some v =>
    let t := rustTrim v
    if t = "" then none else some t
  | none => none

/-- The fixed list of GStreamer plugin/codec path variables cleared by the
live run. -/
def GST_ENV_VARS : List String := [
  "GST_PLUGIN_PATH",
  "GST_PLUGIN_PATH_1_0",
  "GST_PLUGIN_SCANNER",
  "GST_PLUGIN_SCANNER_1_0",
  "GST_REGISTRY_1_0",
  "GST_PLUGIN_SYSTEM_PATH_1_0",
  "GST_PTP_HELPER_1_0",
  "GST_REGISTRY_REUSE_PLUGIN_SCANNER"
]

/-- The side-effect block of the Linux `apply_linux_webkit_env_policy`,
acting on the environment: set the DMABUF override when the policy applied
it; when safe mode is enabled, disable the WebKit sandbox if the session
is wayland and clear the GStreamer variables (the clearing loop sits
inside the safe-mode branch but outside the wayland check in the source);
always blacklist the onnx GStreamer plugin. -/
def applyPolicyEffects (policy : LinuxWebkitEnvPolicy) (e : EnvMap) : EnvMap :=
  let e1 := if policy.applied_dmabuf_disable then envSet e WEBKIT_DMABUF_ENV "1" else e
  let e2 :=
    if policy.safe_mode_enabled then
      let ea :=
        if policy.session = "wayland" then
          envSet e1 "WEBKIT_DISABLE_SANDBOX_THIS_IS_DANGEROUS" "1"
        else e1
      GST_ENV_VARS.foldl envRemove ea
    else e1
  envSet e2 "GST_PLUGIN_BLACKLIST" "onnx"

/-- Model of the Linux build of `apply_linux_webkit_env_policy`: read the
five ambient variables, compute the pure policy, then perform the side
effects on the environment.  Returns the policy and the updated
environment. -/
def apply_linux_webkit_env_policy (e : EnvMap) : LinuxWebkitEnvPolicy × EnvMap :=
  let xdg_session_type := read_trimmed_env_var e "XDG_SESSION_TYPE"
  let wayland_display := read_trimmed_env_var e "WAYLAND_DISPLAY"
  let x11_display := read_trimmed_env_var e "DISPLAY"
  let safe_mode_override := read_trimmed_env_var e LINUX_WEBKIT_SAFE_MODE_ENV
  let existing_dmabuf_value := read_trimmed_env_var e WEBKIT_DMABUF_ENV
  let policy := compute_linux_webkit_policy xdg_session_type wayland_display
    x11_display safe_mode_override existing_dmabuf_value
  (policy, applyPolicyEffects policy e)

/-- A concrete environment for an x11 session with a stale GStreamer
plugin path inherited from a packaging tool. -/
def envX11WithGst : EnvMap := fun k =>
  if k = "XDG_SESSION_TYPE" then some "x11"
  else if k = "GST_PLUGIN_PATH" then some "/stale/gst" else none

/-! ### Credential store and vault migration
(SecretsCache::load_from_keychain in main.rs)

`Keychain.vault` is the consolidated "secrets-vault" entry: `none` when the
entry is absent or unreadable, `some none` when present but not parsable as
a string map, `some (some m)` when it parses to `m`.  `Keychain.legacy` is
the per-key legacy entries.  The fallible writes of the migration are
driven by oracles: `persistOk` for the consolidated `set_password`, and
`deleteOk key` for each best-effort `delete_credential`. -/

structure Keychain where
  vault : Option (Option Smap)
  legacy : String → Option String

/-- What the migration loop extracts from one legacy entry: the trimmed
value when present and non-empty after trimming, otherwise nothing. -/
def legacyEntry (legacy : String → Option String) (key : String) : Option String :=
  match legacy key with
  | some v => if rustTrim v = "" then none else some (rustTrim v)
  | none => none

/-- One iteration of the migration merge loop. -/
def mergeStep (legacy : String → Option String) (acc : Smap) (key : String) : Smap :=
  match legacy key with
  | some v => if rustTrim v = "" then acc else acc.insert key (rustTrim v)
  | none => acc

/-- The map built by the migration merge loop over the supported keys. -/
def mergedLegacy (legacy : String → Option String) : Smap :=
  SUPPORTED_SECRET_KEYS.foldl (mergeStep legacy) Smap.empty

/-- Stand-in for the `!secrets.is_empty()` test after the merge loop: some
supported key contributed a value.  `hasAnyLegacy_iff` below proves this
equivalent to non-emptiness of `mergedLegacy`. -/
def hasAnyLegacy (legacy : String → Option String) : Bool :=
  SUPPORTED_SECRET_KEYS.any (fun key => (legacyEntry legacy key).isSome)

/-- The best-effort legacy-deletion loop over the supported keys. -/
def deleteLegacy (deleteOk : String → Bool) (legacy : String → Option String) :
    String → Option String :=
  SUPPORTED_SECRET_KEYS.foldl
    (fun acc key =>
      if deleteOk key then (fun q => if q = key then none else acc q) else acc)
    legacy

/-- The filter+map applied to a parsed consolidated vault: keep supported
keys with non-empty trimmed values, storing the trimmed value. -/
def filterVault (m : Smap) : Smap := fun k =>
  match m k with
  | some v =>
    if k ∈ SUPPORTED_SECRET_KEYS ∧ ¬(rustTrim v = "") then some (rustTrim v) else none
  | none => none

/-- Model of `SecretsCache::load_from_keychain`: if the consolidated vault
entry reads and parses, filter it and return.  Otherwise run the
migration: merge the legacy entries, and when the merged map is non-empty
and the consolidated write succeeds, store it and best-effort delete the
legacy entries.  Returns the loaded map together with the resulting
credential-store state. -/
def load_from_keychain (persistOk : Bool) (deleteOk : String → Bool) (kc : Keychain) :
    Smap × Keychain :=
  match kc.vault with
  | some (some m) => (filterVault m, kc)
  | _ =>
    let secrets := mergedLegacy kc.legacy
    if hasAnyLegacy kc.legacy then
      if persistOk then
        (secrets,
          { vault := some (some secrets), legacy := deleteLegacy deleteOk kc.legacy })
      else (secrets, kc)
    else (secrets, kc)

/-- A keychain holding only a whitespace-valued legacy entry: the
counterexample state for claim C4. -/
def kcWhitespaceLegacy : Keychain :=
  { vault := none, legacy := fun k => if k = "GROQ_API_KEY" then some " " else none }

/-- A keychain holding only one non-empty legacy entry: the witness state
for claim C4. -/
def kcMixedLegacy : Keychain :=
  { vault := none, legacy := fun k => if k = "GROQ_API_KEY" then some " g1 " else none }

/-! ### URL opening (open_url in main.rs)

`reqwest::Url::parse` is abstracted as an already-computed parse outcome:
`none` for an unparsable input, `some u` for a URL with the given scheme
and host.  `open_in_shell`'s spawn is the `openOk` oracle; the returned
Bool records whether an open was attempted. -/

structure ParsedUrl where
  scheme : String
  host : Option String

/-- Model of `open_in_shell`. -/
def open_in_shell (openOk : Bool) : Except String Unit :=
  if openOk then Except.ok () else Except.error "Failed to open"

/-- Model of the `open_url` command over the parse outcome of its input:
https always opens; http opens only for hosts localhost and 127.0.0.1;
everything else is rejected without attempting an open. -/
def open_url (parsed : Option ParsedUrl) (openOk : Bool) : Except String Unit × Bool :=
  match parsed with
  | none => (Except.error "Invalid URL", false)
  | some u =>
    if u.scheme = "https" then (open_in_shell openOk, true)
    else if u.scheme = "http" then
      match u.host with
      | some h =>
        if h = "localhost" ∨ h = "127.0.0.1" then (open_in_shell openOk, true)
        else (Except.error "Only https:// URLs are allowed (http:// only for localhost)",
          false)
      | none =>
        (Except.error "Only https:// URLs are allowed (http:// only for localhost)", false)
    else
      (Except.error "Only https:// URLs are allowed (http:// only for localhost)", false)

/-! ### Claim theorems for the vault commands -/

/-- Claim C2: for every allowed key and every value, `set_secret` and
`delete_secret` build a proposed map, persist it, and only on successful
persistence replace the in-memory map; if `save_vault` fails the operation
returns an error and the whole state (in-memory map and store) is
unchanged, and on success the persisted store equals the new in-memory
map, so the in-memory view never outruns durable storage. -/
theorem c2_persist_before_commit (key : String)
    (hk : key ∈ SUPPORTED_SECRET_KEYS) (value : String) (st : VaultSys) :
    ((set_secret false key value st).1 = st ∧
      (set_secret false key value st).2 = Except.error "Failed to write vault") ∧
    ((set_secret true key value st).2 = Except.ok () ∧
      (set_secret true key value st).1.stored = some (set_secret true key value st).1.mem ∧
      (set_secret true key value st).1.mem =
        (if rustTrim value = "" then st.mem.remove key else st.mem.insert key (rustTrim value))) ∧
    ((delete_secret false key st).1 = st ∧
      (delete_secret false key st).2 = Except.error "Failed to write vault") ∧
    ((delete_secret true key st).2 = Except.ok () ∧
      (delete_secret true key st).1.stored = some (delete_secret true key st).1.mem ∧
      (delete_secret true key st).1.mem = st.mem.remove key) := by
  simp only [set_secret, delete_secret, save_vault, if_pos hk]
  by_cases h : rustTrim value = "" <;> simp [h]

/-- Witness for C2 at a concrete allowed key, value and state. -/
theorem c2_persist_before_commit_witness :
    (set_secret false "GROQ_API_KEY" "abc" ⟨Smap.empty, none⟩).1 = ⟨Smap.empty, none⟩ ∧
    (set_secret true "GROQ_API_KEY" "abc" ⟨Smap.empty, none⟩).2 = Except.ok () := by
  have h := c2_persist_before_commit "GROQ_API_KEY" (by decide) "abc" ⟨Smap.empty, none⟩
  exact ⟨h.1.1, h.2.1.1⟩

/-- Claim C3: for every allowed key `K` and value `V` with non-empty trim,
a successful `set_secret K V` followed by `get_secret K` returns the
trimmed `V`; if `V` trims to empty, the subsequent `get_secret K` returns
`none` (an empty write is a delete). -/
theorem c3_vault_round_trip (key : String)
    (hk : key ∈ SUPPORTED_SECRET_KEYS) (value : String) (st : VaultSys) :
    (set_secret true key value st).2 = Except.ok () ∧
    (rustTrim value ≠ "" →
      get_secret key (set_secret true key value st).1 = Except.ok (some (rustTrim value))) ∧
    (rustTrim value = "" →
      get_secret key (set_secret true key value st).1 = Except.ok none) := by
  simp only [set_secret, get_secret, save_vault, if_pos hk]
  by_cases h : rustTrim value = "" <;>
    simp [h, Smap.insert, Smap.remove]

/-- Witness for C3: set then get of a concrete allowed key round-trips the
trimmed value, and an empty write reads back as absent. -/
theorem c3_vault_round_trip_witness :
    get_secret "FRED_API_KEY"
      (set_secret true "FRED_API_KEY" " v1 " ⟨Smap.empty, none⟩).1 =
      Except.ok (some "v1") ∧
    get_secret "FRED_API_KEY"
      (set_secret true "FRED_API_KEY" "  " ⟨Smap.empty, none⟩).1 =
      Except.ok none := by
  constructor
  · have h := c3_vault_round_trip "FRED_API_KEY" (by decide) " v1 " ⟨Smap.empty, none⟩
    have hv : rustTrim " v1 " = "v1" := by decide
    have := h.2.1 (by decide)
    rwa [hv] at this
  · have h := c3_vault_round_trip "FRED_API_KEY" (by decide) "  " ⟨Smap.empty, none⟩
    exact h.2.2 (by decide)

/-- Claim C6: every key outside the allowlist is rejected by `get_secret`,
`set_secret` and `delete_secret` with a descriptive error, and the state
(in-memory map and persisted store) is unchanged, for every persistence
outcome. -/
theorem c6_unsupported_key_rejected (key : String)
    (hk : key ∉ SUPPORTED_SECRET_KEYS) (value : String) (persistOk : Bool)
    (st : VaultSys) :
    get_secret key st = Except.error ("Unsupported secret key: " ++ key) ∧
    set_secret persistOk key value st =
      (st, Except.error ("Unsupported secret key: " ++ key)) ∧
    delete_secret persistOk key st =
      (st, Except.error ("Unsupported secret key: " ++ key)) := by
  simp [get_secret, set_secret, delete_secret, hk]

/-- Witness for C6 at a concrete unsupported key. -/
theorem c6_unsupported_key_rejected_witness :
    get_secret "NOT_A_REAL_KEY" ⟨Smap.empty, none⟩ =
      Except.error ("Unsupported secret key: " ++ "NOT_A_REAL_KEY") ∧
    set_secret true "NOT_A_REAL_KEY" "v" ⟨Smap.empty, none⟩ =
      (⟨Smap.empty, none⟩, Except.error ("Unsupported secret key: " ++ "NOT_A_REAL_KEY")) := by
  have h := c6_unsupported_key_rejected "NOT_A_REAL_KEY" (by decide) "v" true
    ⟨Smap.empty, none⟩
  exact ⟨h.1, h.2.1⟩


/-! ### Claim theorems for the supervisor -/

/-- Claim C1: after a successful `start_local_api`, a child is recorded,
and a second `start_local_api` without an intervening stop observes the
recorded child and returns success without changing the state and without
invoking spawn — so exactly one recorded child exists. -/
theorem c1_start_twice_single_child (e1 e2 : StartEnv) (st : HostState)
    (h : (start_local_api e1 st).2.1 = Except.ok ()) :
    ((start_local_api e1 st).1).child.isSome = true ∧
    start_local_api e2 (start_local_api e1 st).1 =
      ((start_local_api e1 st).1, Except.ok (), false) := by
  by_cases hc : st.child.isSome
  · simp [start_local_api, hc]
  · cases hs : e1.spawnPid <;>
    by_cases h1 : e1.scriptExists <;>
    by_cases h2 : e1.nodeResolved <;>
    by_cases h3 : e1.logOpenOk <;>
    by_cases h4 : e1.logCloneOk <;>
      simp_all [start_local_api]

/-- Witness for C1 at a concrete environment and the stopped state. -/
theorem c1_start_twice_single_child_witness :
    start_local_api ⟨true, true, true, true, "t2", some 7⟩
      (start_local_api ⟨true, true, true, true, "t1", some 5⟩
        ⟨none, none, fun _ => none⟩).1 =
      ((start_local_api ⟨true, true, true, true, "t1", some 5⟩
        ⟨none, none, fun _ => none⟩).1, Except.ok (), false) :=
  (c1_start_twice_single_child ⟨true, true, true, true, "t1", some 5⟩
    ⟨true, true, true, true, "t2", some 7⟩ ⟨none, none, fun _ => none⟩ rfl).2

/-- Claim C7: a preference-change restart (`set_local_first_mode`, which
persists the preference then stops and restarts the sidecar) leaves the
cached auth token unchanged: `get_local_api_token` returns the same value
before and after, for every outcome of the restart. -/
theorem c7_token_preserved_across_restart (e : StartEnv) (writeOk enabled : Bool)
    (st : HostState) (t : String) (h : get_local_api_token st = Except.ok t) :
    get_local_api_token (set_local_first_mode e writeOk enabled st).1 =
      Except.ok t := by
  have ht : st.token = some t := by
    unfold get_local_api_token at h
    match hs : st.token with
    | some t0 => rw [hs] at h; cases h; rfl
    | none => rw [hs] at h; cases h
  by_cases hw : writeOk
  · cases hs : e.spawnPid <;>
    by_cases h1 : e.scriptExists <;>
    by_cases h2 : e.nodeResolved <;>
    by_cases h3 : e.logOpenOk <;>
    by_cases h4 : e.logCloneOk <;>
      simp [set_local_first_mode, stop_local_api, start_local_api,
        get_local_api_token, hw, hs, ht, h1, h2, h3, h4]
  · simp [set_local_first_mode, get_local_api_token, hw, ht]

/-- Witness for C7: a concrete running state with a cached token keeps it
across the preference-change restart. -/
theorem c7_token_preserved_across_restart_witness :
    get_local_api_token
      (set_local_first_mode ⟨true, true, true, true, "fresh", some 9⟩ true true
        ⟨some 5, some "cached-token", fun _ => none⟩).1 =
      Except.ok "cached-token" :=
  c7_token_preserved_across_restart ⟨true, true, true, true, "fresh", some 9⟩
    true true ⟨some 5, some "cached-token", fun _ => none⟩ "cached-token" rfl


/-! ### Trim idempotence -/

theorem dropWhile_dropWhile (p : Char → Bool) (l : List Char) :
    (l.dropWhile p).dropWhile p = l.dropWhile p := by
  induction l with
  | nil => rfl
  | cons a t ih =>
    by_cases h : p a
    · simp [List.dropWhile_cons, h, ih]
    · simp [List.dropWhile_cons, h]

theorem getLast?_dropWhile (p : Char → Bool) (l : List Char)
    (h : l.dropWhile p ≠ []) : (l.dropWhile p).getLast? = l.getLast? := by
  induction l with
  | nil => simp at h
  | cons a t ih =>
    by_cases hp : p a
    · rw [List.dropWhile_cons_of_pos hp] at h ⊢
      have ht : t ≠ [] := by
        intro h0
        rw [h0] at h
        simp at h
      rw [ih h]
      cases t with
      | nil => exact absurd rfl ht
      | cons b t2 => exact List.getLast?_cons_cons.symm
    · rw [List.dropWhile_cons_of_neg hp]

theorem head?_dropWhile_ws (p : Char → Bool) (l : List Char) (a : Char)
    (h : (l.dropWhile p).head? = some a) : p a = false := by
  have hnot := List.head?_dropWhile_not p l
  rw [h] at hnot
  exact hnot

theorem dropWhile_eq_self_of_head (p : Char → Bool) (l : List Char)
    (h : ∀ a, l.head? = some a → p a = false) : l.dropWhile p = l := by
  cases l with
  | nil => rfl
  | cons a t => simp [List.dropWhile_cons, h a rfl]

theorem trimChars_idem (l : List Char) : trimChars (trimChars l) = trimChars l := by
  have h1 : (trimChars l).dropWhile isRustWhitespace = trimChars l := by
    apply dropWhile_eq_self_of_head
    intro a ha
    unfold trimChars at ha
    rw [List.head?_reverse] at ha
    have hne : (l.dropWhile isRustWhitespace).reverse.dropWhile isRustWhitespace ≠ [] := by
      intro h0
      rw [h0] at ha
      simp at ha
    rw [getLast?_dropWhile _ _ hne, List.getLast?_reverse] at ha
    exact head?_dropWhile_ws _ _ _ ha
  have expand : trimChars (trimChars l) =
      (((trimChars l).dropWhile isRustWhitespace).reverse.dropWhile
        isRustWhitespace).reverse := rfl
  rw [expand, h1]
  have expand2 : (trimChars l).reverse =
      (l.dropWhile isRustWhitespace).reverse.dropWhile isRustWhitespace := by
    unfold trimChars
    rw [List.reverse_reverse]
  rw [expand2, dropWhile_dropWhile]
  rfl

theorem rustTrim_idem (s : String) : rustTrim (rustTrim s) = rustTrim s :=
  congrArg String.mk (trimChars_idem s.data)

/-! ### Pointwise behavior of the migration folds -/

theorem foldl_insertEntry_apply (f : String → Option String) (vs : List String)
    (acc : Smap) (k : String) :
    (vs.foldl
        (fun a key => match f key with | some t => Smap.insert a key t | none => a)
        acc) k =
      match f k with
      | some t => if k ∈ vs then some t else acc k
      | none => acc k := by
  induction vs generalizing acc with
  | nil => cases f k <;> simp
  | cons key rest ih =>
    rw [List.foldl_cons, ih]
    by_cases hk : k = key
    · subst hk
      cases hf : f k with
      | some t => simp [hf, Smap.insert, List.mem_cons]
      | none => simp [hf]
    · cases hf : f k with
      | some t =>
        cases hfk : f key with
        | some t2 => simp [hfk, Smap.insert, hk, List.mem_cons]
        | none => simp [hfk, hk, List.mem_cons]
      | none =>
        cases hfk : f key with
        | some t2 => simp [hfk, Smap.insert, hk]
        | none => simp [hfk]

theorem mergeStep_eq (legacy : String → Option String) :
    mergeStep legacy = (fun acc key =>
      match legacyEntry legacy key with
      | some t => Smap.insert acc key t
      | none => acc) := by
  funext acc key
  unfold mergeStep legacyEntry
  cases legacy key with
  | none => rfl
  | some v => by_cases h0 : rustTrim v = "" <;> simp [h0]

theorem legacyEntry_eq_some (legacy : String → Option String) (k t : String) :
    legacyEntry legacy k = some t ↔
      ∃ v, legacy k = some v ∧ ¬rustTrim v = "" ∧ rustTrim v = t := by
  unfold legacyEntry
  cases hl : legacy k with
  | none => simp
  | some v => by_cases h0 : rustTrim v = "" <;> simp [h0]

theorem mergedLegacy_apply (legacy : String → Option String) (k : String) :
    mergedLegacy legacy k =
      match legacyEntry legacy k with
      | some t => if k ∈ SUPPORTED_SECRET_KEYS then some t else none
      | none => none := by
  unfold mergedLegacy
  rw [mergeStep_eq, foldl_insertEntry_apply]
  cases legacyEntry legacy k <;> simp [Smap.empty]

theorem foldl_deleteStep_apply (dOk : String → Bool) (vs : List String)
    (acc : String → Option String) (k : String) :
    (vs.foldl
        (fun a key =>
          if dOk key then (fun q => if q = key then none else a q) else a)
        acc) k =
      if k ∈ vs ∧ dOk k = true then none else acc k := by
  induction vs generalizing acc with
  | nil => simp
  | cons key rest ih =>
    rw [List.foldl_cons, ih]
    by_cases hk : k = key
    · subst hk
      by_cases hd : dOk k = true
      · by_cases hr : k ∈ rest <;> simp [hd, hr, List.mem_cons]
      · simp [hd, List.mem_cons]
    · by_cases hd2 : dOk key = true
      · by_cases hr : k ∈ rest ∧ dOk k = true <;>
          simp [hd2, hk, hr, List.mem_cons]
      · by_cases hr : k ∈ rest ∧ dOk k = true <;>
          simp [hd2, hk, hr, List.mem_cons]

theorem deleteLegacy_apply (dOk : String → Bool) (legacy : String → Option String)
    (k : String) :
    deleteLegacy dOk legacy k =
      if k ∈ SUPPORTED_SECRET_KEYS ∧ dOk k = true then none else legacy k :=
  foldl_deleteStep_apply dOk SUPPORTED_SECRET_KEYS legacy k

/-- Faithfulness of the `hasAnyLegacy` stand-in: it is exactly the
non-emptiness of the merged migration map (the source tests
`!secrets.is_empty()`). -/
theorem hasAnyLegacy_iff (legacy : String → Option String) :
    hasAnyLegacy legacy = true ↔ ∃ k, mergedLegacy legacy k ≠ none := by
  unfold hasAnyLegacy
  rw [List.any_eq_true]
  constructor
  · rintro ⟨key, hmem, hsome⟩
    refine ⟨key, ?_⟩
    rw [mergedLegacy_apply]
    cases hle : legacyEntry legacy key with
    | none => rw [hle] at hsome; cases hsome
    | some t => simp [hmem]
  · rintro ⟨k, hk⟩
    rw [mergedLegacy_apply] at hk
    cases hle : legacyEntry legacy k with
    | none => rw [hle] at hk; simp at hk
    | some t =>
      rw [hle] at hk
      by_cases hm : k ∈ SUPPORTED_SECRET_KEYS
      · exact ⟨k, hm, by simp [hle]⟩
      · simp [hm] at hk

/-- Pointwise behavior of the GStreamer-variable clearing loop. -/
theorem foldl_envRemove_apply (vs : List String) (e : EnvMap) (k : String) :
    (vs.foldl envRemove e) k = if k ∈ vs then none else e k := by
  induction vs generalizing e with
  | nil => simp
  | cons v rest ih =>
    simp only [List.foldl_cons, ih, envRemove, List.mem_cons]
    by_cases hv : k = v <;> by_cases hr : k ∈ rest <;> simp [hv, hr]

/-- Claim C5: `applied_dmabuf_disable` holds iff the classified session is
wayland, safe mode is enabled, and no pre-existing DMABUF override value
is present; in each no-action case the decision reason names the deciding
factor (the detected session, the safe-mode override variable, or the
pre-existing override value, respectively). -/
theorem c5_policy_decision_table
    (xdg wd xd smo edv : Option String) :
    ((compute_linux_webkit_policy xdg wd xd smo edv).applied_dmabuf_disable = true ↔
      ((compute_linux_webkit_policy xdg wd xd smo edv).session = "wayland" ∧
        (compute_linux_webkit_policy xdg wd xd smo edv).safe_mode_enabled = true ∧
        edv = none)) ∧
    ((compute_linux_webkit_policy xdg wd xd smo edv).session ≠ "wayland" →
      (compute_linux_webkit_policy xdg wd xd smo edv).applied_dmabuf_disable = false ∧
      (compute_linux_webkit_policy xdg wd xd smo edv).decision_reason =
        "session=" ++ (compute_linux_webkit_policy xdg wd xd smo edv).session ++
          "; no automatic WebKit DMABUF override") ∧
    ((compute_linux_webkit_policy xdg wd xd smo edv).session = "wayland" →
      (compute_linux_webkit_policy xdg wd xd smo edv).safe_mode_enabled = false →
      (compute_linux_webkit_policy xdg wd xd smo edv).applied_dmabuf_disable = false ∧
      (compute_linux_webkit_policy xdg wd xd smo edv).decision_reason =
        LINUX_WEBKIT_SAFE_MODE_ENV ++ " disabled automatic Wayland WebKit safeguards") ∧
    (∀ v, (compute_linux_webkit_policy xdg wd xd smo edv).session = "wayland" →
      (compute_linux_webkit_policy xdg wd xd smo edv).safe_mode_enabled = true →
      edv = some v →
      (compute_linux_webkit_policy xdg wd xd smo edv).applied_dmabuf_disable = false ∧
      (compute_linux_webkit_policy xdg wd xd smo edv).decision_reason =
        WEBKIT_DMABUF_ENV ++ " already set to " ++ v) := by
  by_cases hs : detect_linux_session xdg wd xd = "wayland"
  · cases smo with
    | none => cases edv <;> simp [compute_linux_webkit_policy, hs]
    | some sv =>
      by_cases hf : env_value_is_false sv <;>
        cases edv <;> simp [compute_linux_webkit_policy, hs, hf]
  · cases smo <;> cases edv <;> simp [compute_linux_webkit_policy, hs]

/-- Witness for C5: a wayland session with defaults applies the override;
the reverse direction of the iff is exercised at the same input. -/
theorem c5_policy_decision_table_witness :
    (compute_linux_webkit_policy (some "wayland") none none none none).applied_dmabuf_disable =
      true :=
  (c5_policy_decision_table (some "wayland") none none none none).1.mpr
    ⟨rfl, rfl, rfl⟩

/-- Helper for C8: whenever the decision table applies the DMABUF
override, the session is wayland and safe mode is enabled. -/
theorem applied_imp_wayland_safe (xdg wd xd smo edv : Option String) :
    (compute_linux_webkit_policy xdg wd xd smo edv).applied_dmabuf_disable = true →
    (compute_linux_webkit_policy xdg wd xd smo edv).session = "wayland" ∧
    (compute_linux_webkit_policy xdg wd xd smo edv).safe_mode_enabled = true := by
  by_cases hs : detect_linux_session xdg wd xd = "wayland"
  · cases smo with
    | none => cases edv <;> simp [compute_linux_webkit_policy, hs]
    | some sv =>
      by_cases hf : env_value_is_false sv <;>
        cases edv <;> simp [compute_linux_webkit_policy, hs, hf]
  · cases smo <;> cases edv <;> simp [compute_linux_webkit_policy, hs]

/-- Behavior of the side-effect block on the environment, for any policy
satisfying the decision-table implication of `applied_imp_wayland_safe`. -/
theorem applyPolicyEffects_spec (p : LinuxWebkitEnvPolicy) (e : EnvMap)
    (happ : p.applied_dmabuf_disable = true →
      p.session = "wayland" ∧ p.safe_mode_enabled = true) :
    (p.safe_mode_enabled = true → p.session = "wayland" →
      applyPolicyEffects p e "WEBKIT_DISABLE_SANDBOX_THIS_IS_DANGEROUS" = some "1") ∧
    (¬(p.safe_mode_enabled = true ∧ p.session = "wayland") →
      applyPolicyEffects p e "WEBKIT_DISABLE_SANDBOX_THIS_IS_DANGEROUS" =
        e "WEBKIT_DISABLE_SANDBOX_THIS_IS_DANGEROUS") ∧
    (p.safe_mode_enabled = true →
      ∀ v ∈ GST_ENV_VARS, applyPolicyEffects p e v = none) ∧
    (p.safe_mode_enabled = false →
      ∀ v ∈ GST_ENV_VARS, applyPolicyEffects p e v = e v) ∧
    applyPolicyEffects p e "GST_PLUGIN_BLACKLIST" = some "onnx" := by
  have hsandbox_not_gst : "WEBKIT_DISABLE_SANDBOX_THIS_IS_DANGEROUS" ∉ GST_ENV_VARS := by
    decide
  have happlied_false : p.safe_mode_enabled = false → p.applied_dmabuf_disable = false := by
    intro hsm
    cases hpa : p.applied_dmabuf_disable
    · rfl
    · have h2 := (happ hpa).2
      rw [hsm] at h2
      cases h2
  refine ⟨?_, ?_, ?_, ?_, ?_⟩
  · intro hsm hw
    simp [applyPolicyEffects, hsm, hw, envSet, foldl_envRemove_apply, hsandbox_not_gst]
  · intro hns
    cases hsm : p.safe_mode_enabled
    · have hap := happlied_false hsm
      simp [applyPolicyEffects, hsm, hap, envSet]
    · have hw : ¬p.session = "wayland" := fun hw => hns ⟨hsm, hw⟩
      have hap : p.applied_dmabuf_disable = false := by
        cases hpa : p.applied_dmabuf_disable
        · rfl
        · exact absurd (happ hpa).1 hw
      simp [applyPolicyEffects, hsm, hw, hap, envSet, foldl_envRemove_apply,
        hsandbox_not_gst]
  · intro hsm v hv
    have hvb : ¬v = "GST_PLUGIN_BLACKLIST" := by
      rintro rfl; revert hv; decide
    simp [applyPolicyEffects, hsm, envSet, foldl_envRemove_apply, hv, hvb]
  · intro hsm v hv
    have hvb : ¬v = "GST_PLUGIN_BLACKLIST" := by
      rintro rfl; revert hv; decide
    have hap := happlied_false hsm
    simp [applyPolicyEffects, hsm, hap, envSet, hvb]
  · simp [applyPolicyEffects, envSet]

/-- Counterexample to claim C8 as stated: in an x11 session with safe mode
at its default (enabled), the stale GStreamer plugin path is cleared by
the live run even though the session is not wayland. -/
theorem c8_gst_cleared_on_x11_counterexample :
    (apply_linux_webkit_env_policy envX11WithGst).1.session = "x11" ∧
    envX11WithGst "GST_PLUGIN_PATH" = some "/stale/gst" ∧
    (apply_linux_webkit_env_policy envX11WithGst).2 "GST_PLUGIN_PATH" = none := by
  refine ⟨rfl, rfl, ?_⟩
  rfl

/-- Claim C8 (amended): on a live Linux run, the WebKit sandbox is
force-disabled exactly when safe mode is enabled and the session is
wayland; the fixed list of GStreamer plugin/codec path variables is
cleared exactly when safe mode is enabled (independent of session); and
the codec-plugin blacklist variable is set on every run. -/
theorem c8_env_side_effects (e : EnvMap) :
    ((apply_linux_webkit_env_policy e).1.safe_mode_enabled = true →
      (apply_linux_webkit_env_policy e).1.session = "wayland" →
      (apply_linux_webkit_env_policy e).2 "WEBKIT_DISABLE_SANDBOX_THIS_IS_DANGEROUS" =
        some "1") ∧
    (¬((apply_linux_webkit_env_policy e).1.safe_mode_enabled = true ∧
        (apply_linux_webkit_env_policy e).1.session = "wayland") →
      (apply_linux_webkit_env_policy e).2 "WEBKIT_DISABLE_SANDBOX_THIS_IS_DANGEROUS" =
        e "WEBKIT_DISABLE_SANDBOX_THIS_IS_DANGEROUS") ∧
    ((apply_linux_webkit_env_policy e).1.safe_mode_enabled = true →
      ∀ v ∈ GST_ENV_VARS, (apply_linux_webkit_env_policy e).2 v = none) ∧
    ((apply_linux_webkit_env_policy e).1.safe_mode_enabled = false →
      ∀ v ∈ GST_ENV_VARS, (apply_linux_webkit_env_policy e).2 v = e v) ∧
    (apply_linux_webkit_env_policy e).2 "GST_PLUGIN_BLACKLIST" = some "onnx" :=
  applyPolicyEffects_spec
    (compute_linux_webkit_policy (read_trimmed_env_var e "XDG_SESSION_TYPE")
      (read_trimmed_env_var e "WAYLAND_DISPLAY") (read_trimmed_env_var e "DISPLAY")
      (read_trimmed_env_var e LINUX_WEBKIT_SAFE_MODE_ENV)
      (read_trimmed_env_var e WEBKIT_DMABUF_ENV))
    e
    (applied_imp_wayland_safe (read_trimmed_env_var e "XDG_SESSION_TYPE")
      (read_trimmed_env_var e "WAYLAND_DISPLAY") (read_trimmed_env_var e "DISPLAY")
      (read_trimmed_env_var e LINUX_WEBKIT_SAFE_MODE_ENV)
      (read_trimmed_env_var e WEBKIT_DMABUF_ENV))

/-- Witness for C8: with an empty environment (safe mode at its default),
the GStreamer path variable ends up cleared and the blacklist is set. -/
theorem c8_env_side_effects_witness :
    (apply_linux_webkit_env_policy (fun _ => none)).2 "GST_PLUGIN_PATH" = none ∧
    (apply_linux_webkit_env_policy (fun _ => none)).2 "GST_PLUGIN_BLACKLIST" =
      some "onnx" :=
  ⟨(c8_env_side_effects (fun _ => none)).2.2.1 rfl "GST_PLUGIN_PATH" (by decide),
    (c8_env_side_effects (fun _ => none)).2.2.2.2⟩

/-- Claim C10: session classification is total and follows the stated
priority order — explicit "wayland" (after trimming and lowercasing) or a
Wayland display handle yields "wayland"; otherwise explicit "x11" or an
X11 display handle yields "x11"; otherwise the non-empty lower-cased
trimmed session-type value; otherwise "unknown". -/
theorem c10_session_classification (xdg wd xd : Option String) :
    (detect_linux_session xdg wd xd = "wayland" ∨
      detect_linux_session xdg wd xd = "x11" ∨
      (∃ s, xdg = some s ∧ rustTrim s ≠ "" ∧
        detect_linux_session xdg wd xd = asciiLower (rustTrim s)) ∨
      detect_linux_session xdg wd xd = "unknown") ∧
    (((∃ s, xdg = some s ∧ rustTrim s ≠ "" ∧ asciiLower (rustTrim s) = "wayland") ∨
        wd.isSome = true) →
      detect_linux_session xdg wd xd = "wayland") ∧
    (¬((∃ s, xdg = some s ∧ rustTrim s ≠ "" ∧ asciiLower (rustTrim s) = "wayland") ∨
        wd.isSome = true) →
      ((∃ s, xdg = some s ∧ rustTrim s ≠ "" ∧ asciiLower (rustTrim s) = "x11") ∨
        xd.isSome = true) →
      detect_linux_session xdg wd xd = "x11") ∧
    (¬((∃ s, xdg = some s ∧ rustTrim s ≠ "" ∧ asciiLower (rustTrim s) = "wayland") ∨
        wd.isSome = true) →
      ¬((∃ s, xdg = some s ∧ rustTrim s ≠ "" ∧ asciiLower (rustTrim s) = "x11") ∨
        xd.isSome = true) →
      (∀ s, xdg = some s → rustTrim s ≠ "" →
        detect_linux_session xdg wd xd = asciiLower (rustTrim s)) ∧
      ((xdg = none ∨ (∃ s, xdg = some s ∧ rustTrim s = "")) →
        detect_linux_session xdg wd xd = "unknown")) := by
  cases xdg with
  | none =>
    by_cases hwd : wd.isSome <;> by_cases hxd : xd.isSome <;>
      simp [detect_linux_session, normalizeSessionType, hwd, hxd]
  | some s =>
    by_cases h0 : rustTrim s = ""
    · by_cases hwd : wd.isSome <;> by_cases hxd : xd.isSome <;>
        simp [detect_linux_session, normalizeSessionType, h0, hwd, hxd]
    · by_cases hw : asciiLower (rustTrim s) = "wayland" <;>
      by_cases hx : asciiLower (rustTrim s) = "x11" <;>
      by_cases hwd : wd.isSome <;> by_cases hxd : xd.isSome <;>
        simp [detect_linux_session, normalizeSessionType, h0, hw, hx, hwd, hxd]

/-- Witness for C10: a padded, mixed-case explicit session type classifies
as wayland; an empty environment classifies as unknown. -/
theorem c10_session_classification_witness :
    detect_linux_session (some " Wayland ") none none = "wayland" ∧
    detect_linux_session none none none = "unknown" := by
  constructor
  · exact (c10_session_classification (some " Wayland ") none none).2.1
      (Or.inl ⟨" Wayland ", rfl, by decide, by decide⟩)
  · exact ((c10_session_classification none none none).2.2.2 (by simp) (by simp)).2
      (Or.inl rfl)


/-- Counterexample to claim C4 as stated: starting from a state in which
only legacy entries exist but every legacy value trims to empty, the merge
produces an empty map, nothing is persisted and the deletion loop never
runs — the legacy entry is still present after the first (successful)
load, contradicting "the legacy entries are absent after the first
successful load".  (The two loads still agree on content.) -/
theorem c4_whitespace_legacy_counterexample :
    ((load_from_keychain true (fun _ => true) kcWhitespaceLegacy).2).legacy
      "GROQ_API_KEY" = some " " ∧
    (load_from_keychain true (fun _ => true)
        (load_from_keychain true (fun _ => true) kcWhitespaceLegacy).2).1 =
      (load_from_keychain true (fun _ => true) kcWhitespaceLegacy).1 :=
  ⟨rfl, rfl⟩

/-- Claim C4 (amended): starting from a state where the consolidated vault
is absent and at least one legacy value is non-empty after trimming, with
the consolidated write and the legacy deletions succeeding: loading twice
yields the same consolidated content, the legacy entries for all supported
keys are absent after the first load, the consolidated vault is persisted
as exactly the loaded map, and the loaded map holds exactly the non-empty
trimmed legacy values of supported keys. -/
theorem c4_migration_idempotent (dOk : String → Bool) (kc : Keychain)
    (hvault : kc.vault = none)
    (hany : hasAnyLegacy kc.legacy = true)
    (hdel : ∀ k, dOk k = true) :
    (load_from_keychain true dOk (load_from_keychain true dOk kc).2).1 =
      (load_from_keychain true dOk kc).1 ∧
    (∀ k ∈ SUPPORTED_SECRET_KEYS,
      ((load_from_keychain true dOk kc).2).legacy k = none) ∧
    ((load_from_keychain true dOk kc).2).vault =
      some (some (load_from_keychain true dOk kc).1) ∧
    (∀ k t, (load_from_keychain true dOk kc).1 k = some t →
      k ∈ SUPPORTED_SECRET_KEYS ∧
      ∃ v, kc.legacy k = some v ∧ rustTrim v = t ∧ t ≠ "") := by
  have hload1 : load_from_keychain true dOk kc =
      (mergedLegacy kc.legacy,
        { vault := some (some (mergedLegacy kc.legacy)),
          legacy := deleteLegacy dOk kc.legacy }) := by
    unfold load_from_keychain
    rw [hvault, hany]
    simp
  have hload2 : load_from_keychain true dOk
      ({ vault := some (some (mergedLegacy kc.legacy)),
         legacy := deleteLegacy dOk kc.legacy } : Keychain) =
      (filterVault (mergedLegacy kc.legacy),
        { vault := some (some (mergedLegacy kc.legacy)),
          legacy := deleteLegacy dOk kc.legacy }) := rfl
  have hfix : filterVault (mergedLegacy kc.legacy) = mergedLegacy kc.legacy := by
    funext k
    simp only [filterVault]
    rw [mergedLegacy_apply]
    by_cases hm : k ∈ SUPPORTED_SECRET_KEYS
    · cases hle : legacyEntry kc.legacy k with
      | none => simp
      | some t =>
        obtain ⟨v, hl, h0, ht⟩ := (legacyEntry_eq_some kc.legacy k t).mp hle
        subst ht
        simp [hm, rustTrim_idem, h0]
    · cases hle : legacyEntry kc.legacy k <;> simp [hm]
  refine ⟨?_, ?_, ?_, ?_⟩
  · rw [hload1, hload2, hfix]
  · intro k hk
    rw [hload1]
    show deleteLegacy dOk kc.legacy k = none
    rw [deleteLegacy_apply]
    simp [hk, hdel k]
  · rw [hload1]
  · intro k t h
    rw [hload1] at h
    have h2 : mergedLegacy kc.legacy k = some t := h
    rw [mergedLegacy_apply] at h2
    cases hle : legacyEntry kc.legacy k with
    | none => rw [hle] at h2; cases h2
    | some t0 =>
      rw [hle] at h2
      by_cases hm : k ∈ SUPPORTED_SECRET_KEYS
      · simp [hm] at h2
        subst h2
        refine ⟨hm, ?_⟩
        obtain ⟨v, hl, h0, ht⟩ := (legacyEntry_eq_some kc.legacy k _).mp hle
        exact ⟨v, hl, ht, by rw [← ht]; exact h0⟩
      · simp [hm] at h2

/-- Witness for C4 at a concrete keychain holding one padded legacy
value. -/
theorem c4_migration_idempotent_witness :
    ((load_from_keychain true (fun _ => true) kcMixedLegacy).2).legacy
      "GROQ_API_KEY" = none ∧
    (load_from_keychain true (fun _ => true)
        (load_from_keychain true (fun _ => true) kcMixedLegacy).2).1 =
      (load_from_keychain true (fun _ => true) kcMixedLegacy).1 := by
  have h := c4_migration_idempotent (fun _ => true) kcMixedLegacy rfl (by decide)
    (fun _ => rfl)
  exact ⟨h.2.1 "GROQ_API_KEY" (by decide), h.1⟩

/-- Counterexample to claim C9 as stated: `open_url` succeeds (and
attempts an open) for an http URL whose host is 127.0.0.1, which the claim
requires to be an error. -/
theorem c9_loopback_ip_counterexample :
    open_url (some ⟨"http", some "127.0.0.1"⟩) true = (Except.ok (), true) := rfl

/-- Claim C9 (amended): `open_url` succeeds only when the input parses and
its scheme is https, or its scheme is http with host localhost or
127.0.0.1; unparsable inputs, other schemes, and http to any other host
are rejected with an error and no open attempt. -/
theorem c9_open_url_scheme_policy (parsed : Option ParsedUrl) (openOk : Bool) :
    ((open_url parsed openOk).1 = Except.ok () →
      openOk = true ∧ ∃ u, parsed = some u ∧
        (u.scheme = "https" ∨ (u.scheme = "http" ∧
          (u.host = some "localhost" ∨ u.host = some "127.0.0.1")))) ∧
    (parsed = none → open_url parsed openOk = (Except.error "Invalid URL", false)) ∧
    (∀ u, parsed = some u → u.scheme ≠ "https" → u.scheme ≠ "http" →
      open_url parsed openOk =
        (Except.error "Only https:// URLs are allowed (http:// only for localhost)",
          false)) ∧
    (∀ u, parsed = some u → u.scheme = "http" →
      u.host ≠ some "localhost" → u.host ≠ some "127.0.0.1" →
      open_url parsed openOk =
        (Except.error "Only https:// URLs are allowed (http:// only for localhost)",
          false)) := by
  cases parsed with
  | none => simp [open_url]
  | some u =>
    by_cases h1 : u.scheme = "https"
    · cases openOk <;> simp [open_url, open_in_shell, h1]
    · by_cases h2 : u.scheme = "http"
      · cases hh : u.host with
        | none => cases openOk <;> simp [open_url, open_in_shell, h1, h2, hh]
        | some hst =>
          by_cases hl : hst = "localhost" ∨ hst = "127.0.0.1"
          · cases openOk <;>
              simp [open_url, open_in_shell, h1, h2, hh, hl] <;>
              rcases hl with hl | hl <;> simp [hl]
          · simp [open_url, open_in_shell, h1, h2, hh, hl]
      · simp [open_url, h1, h2]

/-- Witness for C9: an unparsable input is rejected without opening, and
an https input with the open succeeding returns ok. -/
theorem c9_open_url_scheme_policy_witness :
    open_url none true = (Except.error "Invalid URL", false) :=
  (c9_open_url_scheme_policy none true).2.1 rfl

end WorldMonitor
